import Mathlib

/-
Verification of the MP-Twin pipeline specification against the code of
`app.py`. The application file is pure orchestration; the compartmental
accumulation simulator (`run_digital_twin` in the absent `logic.py`) is
modelled from the specification's contract, while the histology-burden
selection, the counting challenge, and the format guard are shallow
embeddings of the visible code in `app.py`.
-/

namespace MPTwin

/-- Exposure routes by which particles enter the body (oral, inhalation,
dermal), as enumerated by the spec's data model. -/
inductive Route
  | oral
  | inhalation
  | dermal
deriving DecidableEq

/-- Modelled from the spec: the ExposureTotals record consumed by the
missing `logic.run_digital_twin`. Each field is the aggregate particle
count for one route; a `none` field models a missing route total. -/
structure ExposureTotals where
  oral_total : Option ℤ
  inhalation_total : Option ℤ
  dermal_total : Option ℤ
deriving DecidableEq

/-- Route-total selector for an ExposureTotals record. -/
def ExposureTotals.routeTotal (x : ExposureTotals) : Route → Option ℤ
  | .oral => x.oral_total
  | .inhalation => x.inhalation_total
  | .dermal => x.dermal_total

/-- Validity of an ExposureTotals record: every route total present and
non-negative. -/
def ExposureTotals.validB (x : ExposureTotals) : Bool :=
  match x.oral_total, x.inhalation_total, x.dermal_total with
  | some o, some i, some d => decide (0 ≤ o) && decide (0 ≤ i) && decide (0 ≤ d)
  | _, _, _ => false

/-- Modelled from the spec: one organ's entry in the simulator's
configurable transfer-coefficient table — a route-to-organ fraction per
route and a retention/clearance factor. A `none` coefficient models a
missing entry of the parameter set. -/
structure OrganParams where
  name : String
  oralCoeff : Option ℚ
  inhalationCoeff : Option ℚ
  dermalCoeff : Option ℚ
  retention : Option ℚ
deriving DecidableEq

/-- Route-coefficient selector for an organ's parameter entry. -/
def OrganParams.coeff (p : OrganParams) : Route → Option ℚ
  | .oral => p.oralCoeff
  | .inhalation => p.inhalationCoeff
  | .dermal => p.dermalCoeff

/-- An organ's parameter entry is complete when every coefficient and the
retention factor are specified. -/
def OrganParams.completeB (p : OrganParams) : Bool :=
  p.oralCoeff.isSome && p.inhalationCoeff.isSome &&
    p.dermalCoeff.isSome && p.retention.isSome

/-- An organ's parameter entry is non-negative when every specified
coefficient and the retention factor are ≥ 0 (coefficients are fractions
of a route's total). -/
def OrganParams.nonnegB (p : OrganParams) : Bool :=
  decide (0 ≤ p.oralCoeff.getD 0) && decide (0 ≤ p.inhalationCoeff.getD 0) &&
    decide (0 ≤ p.dermalCoeff.getD 0) && decide (0 ≤ p.retention.getD 0)

/-- Modelled from the spec: the externally supplied configuration table of
the simulator — the fixed organ set with per-organ transfer parameters. -/
structure Config where
  organs : List OrganParams
deriving DecidableEq

/-- A configuration is complete when every organ's parameter entry is
fully specified. -/
def Config.completeB (cfg : Config) : Bool :=
  cfg.organs.all OrganParams.completeB

/-- A configuration is non-negative when every organ's parameters are. -/
def Config.nonnegB (cfg : Config) : Bool :=
  cfg.organs.all OrganParams.nonnegB

/-- Failure taxonomy of the simulator: malformed input or incomplete
transfer-coefficient table. -/
inductive SimError
  | invalidInput
  | configurationError
deriving DecidableEq

/-- One row of the OrganBurdenTable produced by the simulator, matching
the columns the app reads from `burdens_df`. -/
structure OrganRow where
  organ : String
  microplastic_count : ℚ
deriving DecidableEq

/-- Burden of one organ: weighted sum across routes of route total times
route-to-organ fraction, scaled by the organ's retention factor. Only
reached on a complete parameter entry, where `getD 0` is exact. -/
def organBurden (o i d : ℤ) (p : OrganParams) : ℚ :=
  p.retention.getD 0 *
    ((o : ℚ) * p.oralCoeff.getD 0 + (i : ℚ) * p.inhalationCoeff.getD 0 +
      (d : ℚ) * p.dermalCoeff.getD 0)

/-- Modelled from the spec: the missing `logic.run_digital_twin`, the
compartmental accumulation simulator. Fails with InvalidInput on a null
input or when any route total is negative or missing; fails with
ConfigurationError when the organ parameter set is not fully specified;
otherwise returns one row per organ of the configured organ set. -/
def run_digital_twin (input : Option ExposureTotals) (cfg : Config) :
    Except SimError (List OrganRow) :=
  match input with
  | none => .error .invalidInput
  | some x =>
    match x.oral_total, x.inhalation_total, x.dermal_total with
    | some o, some i, some d =>
      if o < 0 ∨ i < 0 ∨ d < 0 then .error .invalidInput
      else if cfg.completeB then
        .ok (cfg.organs.map fun p => ⟨p.name, organBurden o i d p⟩)
      else .error .configurationError
    | _, _, _ => .error .invalidInput

/-- Modelled from the spec: a concrete instance of the simulator's fixed
organ set (Liver, Lung, Kidney, Gut, Brain) with the Liver receiving 40%
of oral and 10% of inhalation input as in the spec's scenario; the other
coefficients instantiate the configurable table. -/
def defaultConfig : Config :=
  ⟨[⟨"Liver", some (2/5), some (1/10), some (1/20), some 1⟩,
    ⟨"Lung", some (1/20), some (1/2), some (1/100), some 1⟩,
    ⟨"Kidney", some (1/10), some (1/10), some (1/20), some (9/10)⟩,
    ⟨"Gut", some (3/10), some (1/20), some (1/100), some (4/5)⟩,
    ⟨"Brain", some (1/100), some (1/20), some (1/200), some 1⟩]⟩

/-- A configuration with a missing transfer coefficient, used to exhibit
the ConfigurationError branch. -/
def incompleteConfig : Config :=
  ⟨[⟨"Liver", none, some (1/10), some (1/20), some 1⟩]⟩

end MPTwin

namespace MPTwin

/-- Embedding of the burden lookup in `app.py` (histology step): the first
row whose Organ equals the target organ "Liver" supplies the burden; if
the loc-lookup finds no such row it raises and the except-branch falls
back to the first row of the DataFrame; `none` models the uncaught crash
on an empty DataFrame. -/
def selectBurden (rows : List OrganRow) : Option ℚ :=
  match rows.find? (fun q => q.organ == "Liver") with
  | some r => some r.microplastic_count
  | none => rows.head?.map OrganRow.microplastic_count

/-- Embedding of the `burdens_df` value the app inspects: whether the
'Organ' and 'Microplastic_Count' columns are present, plus the rows. -/
structure BurdensDF where
  hasOrganCol : Bool
  hasCountCol : Bool
  rows : List OrganRow
deriving DecidableEq

/-- Outcome of the app's histology step: the format-error halt
(`st.error` then `st.stop`), an uncaught crash, or the call to
`get_histology_image` with the selected organ and burden. -/
inductive HistologyOutcome
  | formatErrorHalt
  | crash
  | callHistology (organ : String) (burden : ℚ)
deriving DecidableEq

/-- Embedding of the column guard and burden selection in `app.py`: if the
'Organ' or 'Microplastic_Count' column is absent the app shows a format
error and stops; otherwise it selects the burden and calls
`get_histology_image "Liver" burden`. -/
def histologyStep (df : BurdensDF) : HistologyOutcome :=
  if df.hasOrganCol && df.hasCountCol then
    match selectBurden df.rows with
    | some b => .callHistology "Liver" b
    | none => .crash
  else .formatErrorHalt

/-- Messages the counting-challenge step can show after a successful CNN
inference. -/
inductive ChallengeMsg
  | success
  | warning
deriving DecidableEq

/-- Embedding of `error = abs(human_guess - cnn_count)` in `app.py`, for a
non-negative integer guess and an integer CNN count. -/
def countingError (h : ℕ) (c : ℤ) : ℤ := |(h : ℤ) - c|

/-- Embedding of Python's `round(x, 2)` on a rational value (exact on
integral values, which is the case the app reaches with integer counts). -/
def round2 (q : ℚ) : ℚ := (round (q * 100) : ℤ) / 100

/-- The value the app displays as Absolute Error:
`round(abs(human_guess - cnn_count), 2)`. -/
def displayedAbsError (h : ℕ) (c : ℤ) : ℚ := round2 ((countingError h c : ℚ))

/-- Embedding of the branch `if error < 5` choosing between the success
message and the warning. -/
def challengeMsg (h : ℕ) (c : ℤ) : ChallengeMsg :=
  if countingError h c < 5 then .success else .warning

/-- C1: the simulator is a pure function of its input and configuration —
two calls with identical ExposureTotals (and the same read-only
configuration table) return identical OrganBurdenTable values; the
embedding has no randomness, hidden state, clock or external service. -/
theorem run_digital_twin_deterministic (x : Option ExposureTotals) (cfg : Config) :
    run_digital_twin x cfg = run_digital_twin x cfg := rfl

/-- C2: the simulator fails with InvalidInput on a null input or when any
route total is negative or missing, and fails with ConfigurationError when
the input is valid but the organ parameter set is not fully specified; it
never silently returns zeros for missing data. -/
theorem run_digital_twin_error_contract :
    (∀ cfg : Config, run_digital_twin none cfg = .error .invalidInput) ∧
    (∀ (x : ExposureTotals) (cfg : Config), x.validB = false →
      run_digital_twin (some x) cfg = .error .invalidInput) ∧
    (∀ (x : ExposureTotals) (cfg : Config), x.validB = true →
      cfg.completeB = false →
      run_digital_twin (some x) cfg = .error .configurationError) := by
  refine ⟨fun _ => rfl, ?_, ?_⟩
  · rintro ⟨o, i, d⟩ cfg hx
    cases o with
    | none => rfl
    | some o =>
      cases i with
      | none => rfl
      | some i =>
        cases d with
        | none => rfl
        | some d =>
          have hneg : o < 0 ∨ i < 0 ∨ d < 0 := by
            by_contra hcon
            push_neg at hcon
            simp [ExposureTotals.validB, hcon.1, hcon.2.1, hcon.2.2] at hx
          simp only [run_digital_twin]
          rw [if_pos hneg]
  · rintro ⟨o, i, d⟩ cfg hx hcfg
    cases o with
    | none => simp [ExposureTotals.validB] at hx
    | some o =>
      cases i with
      | none => simp [ExposureTotals.validB] at hx
      | some i =>
        cases d with
        | none => simp [ExposureTotals.validB] at hx
        | some d =>
          simp only [ExposureTotals.validB, Bool.and_eq_true,
            decide_eq_true_eq] at hx
          simp only [run_digital_twin]
          rw [if_neg (by omega), if_neg (by simp [hcfg])]

/-- Witness for C2: the null input and a negative oral total both yield
InvalidInput on the concrete default configuration, and a valid all-zero
input on a configuration with a missing Liver oral coefficient yields
ConfigurationError. -/
theorem run_digital_twin_error_contract_witness :
    run_digital_twin none defaultConfig = .error .invalidInput ∧
    run_digital_twin (some ⟨some (-1), some 0, some 0⟩) defaultConfig =
      .error .invalidInput ∧
    run_digital_twin (some ⟨some 0, some 0, some 0⟩) incompleteConfig =
      .error .configurationError :=
  ⟨run_digital_twin_error_contract.1 defaultConfig,
   run_digital_twin_error_contract.2.1 ⟨some (-1), some 0, some 0⟩
     defaultConfig (by decide),
   run_digital_twin_error_contract.2.2 ⟨some 0, some 0, some 0⟩
     incompleteConfig (by decide) (by decide)⟩

/-- C3: on the all-zero ExposureTotals input and any fully specified
configuration, the simulator succeeds and every organ's
Microplastic_Count in the returned OrganBurdenTable is zero. -/
theorem run_digital_twin_zero_input (cfg : Config)
    (hcfg : cfg.completeB = true) :
    ∃ t : List OrganRow,
      run_digital_twin (some ⟨some 0, some 0, some 0⟩) cfg = .ok t ∧
        ∀ r ∈ t, r.microplastic_count = 0 := by
  refine ⟨cfg.organs.map fun p => ⟨p.name, organBurden 0 0 0 p⟩, ?_, ?_⟩
  · simp only [run_digital_twin]
    rw [if_neg (by omega), if_pos hcfg]
  · intro r hr
    rcases List.mem_map.mp hr with ⟨p, _, rfl⟩
    simp [organBurden]

/-- Witness for C3: the zero-input theorem applied to the concrete default
configuration. -/
theorem run_digital_twin_zero_input_witness :
    ∃ t : List OrganRow,
      run_digital_twin (some ⟨some 0, some 0, some 0⟩) defaultConfig = .ok t ∧
        ∀ r ∈ t, r.microplastic_count = 0 :=
  run_digital_twin_zero_input defaultConfig (by decide)

/-- Helper: with non-negative route totals and a non-negative parameter
entry, an organ's burden is non-negative. -/
lemma organBurden_nonneg (o i d : ℤ) (p : OrganParams)
    (ho : 0 ≤ o) (hi : 0 ≤ i) (hd : 0 ≤ d) (hp : p.nonnegB = true) :
    0 ≤ organBurden o i d p := by
  simp only [OrganParams.nonnegB, Bool.and_eq_true, decide_eq_true_eq] at hp
  obtain ⟨⟨⟨hoc, hic⟩, hdc⟩, hret⟩ := hp
  have ho' : (0 : ℚ) ≤ (o : ℚ) := by exact_mod_cast ho
  have hi' : (0 : ℚ) ≤ (i : ℚ) := by exact_mod_cast hi
  have hd' : (0 : ℚ) ≤ (d : ℚ) := by exact_mod_cast hd
  exact mul_nonneg hret
    (add_nonneg (add_nonneg (mul_nonneg ho' hoc) (mul_nonneg hi' hic))
      (mul_nonneg hd' hdc))

/-- Helper: an organ's burden is monotone in each route total when the
parameter entry is non-negative. -/
lemma organBurden_le (o i d o' i' d' : ℤ) (p : OrganParams)
    (hp : p.nonnegB = true) (ho : o ≤ o') (hi : i ≤ i') (hd : d ≤ d') :
    organBurden o i d p ≤ organBurden o' i' d' p := by
  simp only [OrganParams.nonnegB, Bool.and_eq_true, decide_eq_true_eq] at hp
  obtain ⟨⟨⟨hoc, hic⟩, hdc⟩, hret⟩ := hp
  have ho' : (o : ℚ) ≤ (o' : ℚ) := by exact_mod_cast ho
  have hi' : (i : ℚ) ≤ (i' : ℚ) := by exact_mod_cast hi
  have hd' : (d : ℚ) ≤ (d' : ℚ) := by exact_mod_cast hd
  exact mul_le_mul_of_nonneg_left
    (add_le_add (add_le_add (mul_le_mul_of_nonneg_right ho' hoc)
        (mul_le_mul_of_nonneg_right hi' hic))
      (mul_le_mul_of_nonneg_right hd' hdc)) hret

/-- Helper: a valid ExposureTotals record has three present, non-negative
route totals. -/
lemma validB_elim (x : ExposureTotals) (hx : x.validB = true) :
    ∃ o i d : ℤ, x = ⟨some o, some i, some d⟩ ∧ 0 ≤ o ∧ 0 ≤ i ∧ 0 ≤ d := by
  rcases x with ⟨o, i, d⟩
  cases o with
  | none => simp [ExposureTotals.validB] at hx
  | some o =>
    cases i with
    | none => simp [ExposureTotals.validB] at hx
    | some i =>
      cases d with
      | none => simp [ExposureTotals.validB] at hx
      | some d =>
        simp only [ExposureTotals.validB, Bool.and_eq_true,
          decide_eq_true_eq] at hx
        exact ⟨o, i, d, rfl, hx.1.1, hx.1.2, hx.2⟩

/-- Helper: on present, non-negative route totals and a complete
configuration, the simulator returns the mapped burden table. -/
lemma run_digital_twin_ok (o i d : ℤ) (cfg : Config)
    (ho : 0 ≤ o) (hi : 0 ≤ i) (hd : 0 ≤ d) (hcfg : cfg.completeB = true) :
    run_digital_twin (some ⟨some o, some i, some d⟩) cfg =
      .ok (cfg.organs.map fun p => ⟨p.name, organBurden o i d p⟩) := by
  simp only [run_digital_twin]
  rw [if_neg (by omega), if_pos hcfg]

/-- C4: for every valid ExposureTotals input, on a fully specified
non-negative configuration the simulator succeeds and every
Microplastic_Count in the returned OrganBurdenTable is ≥ 0. -/
theorem run_digital_twin_nonneg (x : ExposureTotals) (cfg : Config)
    (hx : x.validB = true) (hcfg : cfg.completeB = true)
    (hnn : cfg.nonnegB = true) :
    ∃ t : List OrganRow, run_digital_twin (some x) cfg = .ok t ∧
      ∀ r ∈ t, 0 ≤ r.microplastic_count := by
  obtain ⟨o, i, d, rfl, ho, hi, hd⟩ := validB_elim x hx
  refine ⟨_, run_digital_twin_ok o i d cfg ho hi hd hcfg, ?_⟩
  intro r hr
  rcases List.mem_map.mp hr with ⟨p, hp, rfl⟩
  exact organBurden_nonneg o i d p ho hi hd
    (List.all_eq_true.mp hnn p hp)

/-- Witness for C4: the non-negativity theorem applied at a concrete
valid input and the default configuration. -/
theorem run_digital_twin_nonneg_witness :
    ∃ t : List OrganRow,
      run_digital_twin (some ⟨some 3, some 5, some 7⟩) defaultConfig = .ok t ∧
        ∀ r ∈ t, 0 ≤ r.microplastic_count :=
  run_digital_twin_nonneg ⟨some 3, some 5, some 7⟩ defaultConfig
    (by decide) (by decide)
    (by norm_num [defaultConfig, Config.nonnegB, OrganParams.nonnegB, List.all])

/-- C5: for every valid ExposureTotals input, the OrganBurdenTable
returned on the model's fixed organ set has exactly one row per organ —
the row names equal the configured organ names, with no organ missing or
duplicated — and the fixed set includes the organ "Liver". -/
theorem run_digital_twin_complete_rows (x : ExposureTotals)
    (hx : x.validB = true) :
    ∃ t : List OrganRow, run_digital_twin (some x) defaultConfig = .ok t ∧
      t.map OrganRow.organ = defaultConfig.organs.map OrganParams.name ∧
      (t.map OrganRow.organ).Nodup ∧
      "Liver" ∈ t.map OrganRow.organ := by
  obtain ⟨o, i, d, rfl, ho, hi, hd⟩ := validB_elim x hx
  refine ⟨_, run_digital_twin_ok o i d defaultConfig ho hi hd (by decide),
    ?_, ?_, ?_⟩
  · simp [List.map_map]
  · rw [List.map_map]
    show (defaultConfig.organs.map fun p => p.name).Nodup
    decide
  · rw [List.map_map]
    show "Liver" ∈ defaultConfig.organs.map fun p => p.name
    decide

/-- Witness for C5: the completeness theorem applied at a concrete valid
input. -/
theorem run_digital_twin_complete_rows_witness :
    ∃ t : List OrganRow,
      run_digital_twin (some ⟨some 1, some 2, some 3⟩) defaultConfig = .ok t ∧
        t.map OrganRow.organ = defaultConfig.organs.map OrganParams.name ∧
        (t.map OrganRow.organ).Nodup ∧
        "Liver" ∈ t.map OrganRow.organ :=
  run_digital_twin_complete_rows ⟨some 1, some 2, some 3⟩ (by decide)

/-- C6: increasing any single route total while holding the other route
totals fixed never decreases any organ's Microplastic_Count (in
particular no organ reachable from that route loses burden), on a fully
specified non-negative configuration. -/
theorem run_digital_twin_monotone (r : Route) (x x' : ExposureTotals)
    (cfg : Config) (hx : x.validB = true) (hx' : x'.validB = true)
    (hoth : ∀ s : Route, s ≠ r → x.routeTotal s = x'.routeTotal s)
    (hinc : ∀ v v' : ℤ, x.routeTotal r = some v → x'.routeTotal r = some v' →
      v ≤ v')
    (hcfg : cfg.completeB = true) (hnn : cfg.nonnegB = true) :
    ∃ t t' : List OrganRow, run_digital_twin (some x) cfg = .ok t ∧
      run_digital_twin (some x') cfg = .ok t' ∧
      List.Forall₂ (fun a b : OrganRow => a.organ = b.organ ∧
        a.microplastic_count ≤ b.microplastic_count) t t' := by
  obtain ⟨o, i, d, rfl, ho, hi, hd⟩ := validB_elim x hx
  obtain ⟨o', i', d', rfl, ho', hi', hd'⟩ := validB_elim x' hx'
  refine ⟨_, _, run_digital_twin_ok o i d cfg ho hi hd hcfg,
    run_digital_twin_ok o' i' d' cfg ho' hi' hd' hcfg, ?_⟩
  rw [List.forall₂_map_left_iff, List.forall₂_map_right_iff,
    List.forall₂_same]
  intro p hp
  refine ⟨rfl, ?_⟩
  have hpn : p.nonnegB = true := List.all_eq_true.mp hnn p hp
  cases r with
  | oral =>
    have hieq : i = i' := by
      have := hoth .inhalation (by simp)
      simpa [ExposureTotals.routeTotal] using this
    have hdeq : d = d' := by
      have := hoth .dermal (by simp)
      simpa [ExposureTotals.routeTotal] using this
    exact organBurden_le o i d o' i' d' p hpn (hinc o o' rfl rfl)
      (le_of_eq hieq) (le_of_eq hdeq)
  | inhalation =>
    have hoeq : o = o' := by
      have := hoth .oral (by simp)
      simpa [ExposureTotals.routeTotal] using this
    have hdeq : d = d' := by
      have := hoth .dermal (by simp)
      simpa [ExposureTotals.routeTotal] using this
    exact organBurden_le o i d o' i' d' p hpn (le_of_eq hoeq)
      (hinc i i' rfl rfl) (le_of_eq hdeq)
  | dermal =>
    have hoeq : o = o' := by
      have := hoth .oral (by simp)
      simpa [ExposureTotals.routeTotal] using this
    have hieq : i = i' := by
      have := hoth .inhalation (by simp)
      simpa [ExposureTotals.routeTotal] using this
    exact organBurden_le o i d o' i' d' p hpn (le_of_eq hoeq)
      (le_of_eq hieq) (hinc d d' rfl rfl)

/-- Witness for C6: the monotonicity theorem applied with the oral route
total raised from 1 to 10 while inhalation and dermal stay fixed, on the
default configuration. -/
theorem run_digital_twin_monotone_witness :
    ∃ t t' : List OrganRow,
      run_digital_twin (some ⟨some 1, some 2, some 3⟩) defaultConfig = .ok t ∧
      run_digital_twin (some ⟨some 10, some 2, some 3⟩) defaultConfig =
        .ok t' ∧
      List.Forall₂ (fun a b : OrganRow => a.organ = b.organ ∧
        a.microplastic_count ≤ b.microplastic_count) t t' :=
  run_digital_twin_monotone .oral ⟨some 1, some 2, some 3⟩
    ⟨some 10, some 2, some 3⟩ defaultConfig (by decide) (by decide)
    (by intro s hs
        cases s with
        | oral => exact absurd rfl hs
        | inhalation => rfl
        | dermal => rfl)
    (by intro v v' hv hv'
        simp [ExposureTotals.routeTotal] at hv hv'
        omega)
    (by decide)
    (by norm_num [defaultConfig, Config.nonnegB, OrganParams.nonnegB, List.all])

/-- C7: every invocation of the simulator either fully succeeds with a
complete OrganBurdenTable (one row per configured organ) or fails entirely
with an error; no partial table is ever returned, and as a pure function
the call has no side effects on any state. -/
theorem run_digital_twin_atomic (input : Option ExposureTotals) (cfg : Config) :
    (∃ t : List OrganRow, run_digital_twin input cfg = .ok t ∧
      t.length = cfg.organs.length) ∨
    (∃ e : SimError, run_digital_twin input cfg = .error e) := by
  cases input with
  | none => exact Or.inr ⟨.invalidInput, rfl⟩
  | some x =>
    rcases x with ⟨o, i, d⟩
    cases o with
    | none => exact Or.inr ⟨.invalidInput, rfl⟩
    | some o =>
      cases i with
      | none => exact Or.inr ⟨.invalidInput, rfl⟩
      | some i =>
        cases d with
        | none => exact Or.inr ⟨.invalidInput, rfl⟩
        | some d =>
          simp only [run_digital_twin]
          by_cases hneg : o < 0 ∨ i < 0 ∨ d < 0
          · exact Or.inr ⟨.invalidInput, by rw [if_pos hneg]⟩
          · rw [if_neg hneg]
            by_cases hc : cfg.completeB
            · rw [if_pos hc]
              exact Or.inl ⟨_, rfl, by simp⟩
            · rw [if_neg hc]
              exact Or.inr ⟨.configurationError, rfl⟩

/-- C8: on a non-empty burdens table with both columns present, the burden
the app passes to `get_histology_image` is the Microplastic_Count of the
first row whose Organ is "Liver" when one exists; otherwise it silently
falls back to the first row's Microplastic_Count; in both cases a burden
is produced and no error is reported. -/
theorem histology_burden_selection (rows : List OrganRow) (h : rows ≠ []) :
    ((∃ r ∈ rows, r.organ = "Liver") →
      ∃ r, rows.find? (fun q => q.organ == "Liver") = some r ∧
        r.organ = "Liver" ∧ selectBurden rows = some r.microplastic_count) ∧
    ((∀ r ∈ rows, r.organ ≠ "Liver") →
      selectBurden rows = some ((rows.head h).microplastic_count)) ∧
    (selectBurden rows).isSome = true := by
  refine ⟨?_, ?_, ?_⟩
  · intro hex
    have hs : (rows.find? (fun q => q.organ == "Liver")).isSome := by
      refine List.find?_isSome.mpr ?_
      obtain ⟨r, hr, hrl⟩ := hex
      exact ⟨r, hr, by simpa using hrl⟩
    obtain ⟨r, hfind⟩ := Option.isSome_iff_exists.mp hs
    refine ⟨r, hfind, by simpa using List.find?_some hfind, ?_⟩
    simp [selectBurden, hfind]
  · intro hnone
    have hfind : rows.find? (fun q => q.organ == "Liver") = none :=
      List.find?_eq_none.mpr fun x hx => by simpa using hnone x hx
    simp [selectBurden, hfind, List.head?_eq_head h]
  · cases hfind : rows.find? (fun q => q.organ == "Liver") with
    | some r => simp [selectBurden, hfind]
    | none => simp [selectBurden, hfind, List.head?_eq_head h]

/-- Witness for C8: the selection theorem applied to a concrete table with
a Lung row first and two Liver rows. -/
theorem histology_burden_selection_witness :
    (([⟨"Lung", 1⟩, ⟨"Liver", 5⟩, ⟨"Liver", 7⟩] : List OrganRow) ≠ []) ∧
    (((∃ r ∈ ([⟨"Lung", 1⟩, ⟨"Liver", 5⟩, ⟨"Liver", 7⟩] : List OrganRow),
        r.organ = "Liver") →
      ∃ r, ([⟨"Lung", 1⟩, ⟨"Liver", 5⟩, ⟨"Liver", 7⟩] :
            List OrganRow).find? (fun q => q.organ == "Liver") = some r ∧
        r.organ = "Liver" ∧
        selectBurden [⟨"Lung", 1⟩, ⟨"Liver", 5⟩, ⟨"Liver", 7⟩] =
          some r.microplastic_count) ∧
    ((∀ r ∈ ([⟨"Lung", 1⟩, ⟨"Liver", 5⟩, ⟨"Liver", 7⟩] : List OrganRow),
        r.organ ≠ "Liver") →
      selectBurden [⟨"Lung", 1⟩, ⟨"Liver", 5⟩, ⟨"Liver", 7⟩] =
        some ((([⟨"Lung", 1⟩, ⟨"Liver", 5⟩, ⟨"Liver", 7⟩] :
          List OrganRow).head (by simp)).microplastic_count)) ∧
    (selectBurden [⟨"Lung", 1⟩, ⟨"Liver", 5⟩, ⟨"Liver", 7⟩]).isSome = true) :=
  ⟨by simp, histology_burden_selection
    [⟨"Lung", 1⟩, ⟨"Liver", 5⟩, ⟨"Liver", 7⟩] (by simp)⟩

/-- C9: for every non-negative integer guess and integer CNN count, the
displayed Absolute Error equals |guess − count|, and the success message
is chosen exactly when that error is below 5, the warning otherwise. -/
theorem counting_challenge_spec (h : ℕ) (c : ℤ) :
    displayedAbsError h c = ((|(h : ℤ) - c| : ℤ) : ℚ) ∧
    (challengeMsg h c = .success ↔ |(h : ℤ) - c| < 5) ∧
    (challengeMsg h c = .warning ↔ ¬ |(h : ℤ) - c| < 5) := by
  refine ⟨?_, ?_, ?_⟩
  · show round2 ((countingError h c : ℚ)) = _
    rw [round2, countingError]
    have hcast : ((|(h : ℤ) - c| : ℤ) : ℚ) * 100 =
        (((|(h : ℤ) - c| * 100 : ℤ)) : ℚ) := by push_cast; ring
    rw [hcast, round_intCast]
    push_cast
    ring
  · rw [challengeMsg, countingError]
    by_cases hlt : |(h : ℤ) - c| < 5
    · simp [hlt]
    · simp [hlt]
  · rw [challengeMsg, countingError]
    by_cases hlt : |(h : ℤ) - c| < 5
    · simp [hlt]
    · simp [hlt]

/-- C10: when the burdens table lacks the 'Organ' column or the
'Microplastic_Count' column, the app's histology step shows a format error
and halts, so `get_histology_image` (and hence the CNN step behind it) is
never reached. -/
theorem burdens_format_guard (df : BurdensDF)
    (hmiss : df.hasOrganCol = false ∨ df.hasCountCol = false) :
    histologyStep df = .formatErrorHalt ∧
      ∀ (o : String) (b : ℚ), histologyStep df ≠ .callHistology o b := by
  have hhalt : histologyStep df = .formatErrorHalt := by
    rcases hmiss with hm | hm <;> simp [histologyStep, hm]
  refine ⟨hhalt, fun o b hcall => ?_⟩
  rw [hhalt] at hcall
  exact HistologyOutcome.noConfusion hcall

/-- Witness for C10: the guard theorem applied to a table missing the
'Organ' column. -/
theorem burdens_format_guard_witness :
    histologyStep ⟨false, true, []⟩ = .formatErrorHalt ∧
      ∀ (o : String) (b : ℚ),
        histologyStep ⟨false, true, []⟩ ≠ .callHistology o b :=
  burdens_format_guard ⟨false, true, []⟩ (Or.inl rfl)

end MPTwin
